import Mathlib

/- Shallow embedding of the scoped resolution and lifecycle engine of the
   anydi dependency-injection runtime (src/anydi/_context.py).

   Python values are modelled by the inductive `Value`; `Value.pynone` is the
   Python `None` object (relevant because `ScopedContext.get_or_create` tests
   `self._instances.get(interface) is None`).  Python dicts are modelled as
   insertion-ordered association lists.  Python exceptions are modelled with
   an explicit `Except`-style result paired with the state: a raised exception
   does not roll back state mutations, so every operation returns
   `(Except Err α) × CtxState`.

   The container (`src/anydi/_container.py` is not part of the analysed
   sources) is abstracted: `Env` carries the override table
   (`container._override_instances`), the `testing` flag and two oracles
   standing for `container._resolve_parameter` / `container._aresolve_parameter`,
   which may fail and may mutate the state arbitrarily. -/

namespace AnyDI

/-- Call kinds of a provider factory, from `anydi._provider.CallableKind`. -/
inductive CallableKind where
  | plain
  | generator
  | coroutine
  | asyncGenerator
deriving DecidableEq, Repr

/-- Interfaces are opaque hashable identities; modelled as naturals. -/
abbrev Interface := Nat

/-- Python runtime values, as far as the engine observes them. -/
inductive Value where
  | pynone
  | obj (id : Nat)
  | wrapped (interface : Interface) (inner : Value)
deriving DecidableEq, Repr

/-- One formal parameter of a provider factory (`inspect.Parameter`). -/
structure Param where
  name : String
  iface : Interface
  hasDefault : Bool
  default : Value
  positionalOnly : Bool
deriving DecidableEq, Repr

/-- What calling (or iterating) the factory produces: a freshly allocated
object, or some fixed pre-existing value (possibly `pynone`). -/
inductive FactoryRes where
  | fresh
  | const (v : Value)
deriving DecidableEq, Repr

/-- Provider descriptor (`anydi._provider.Provider`), restricted to the fields
the context engine reads. `isCM` / `isAsyncCM` model the
`isinstance(instance, AbstractContextManager / AbstractAsyncContextManager)`
checks; `releaseErr` is the exception (if any) raised when the resource
registered for this provider is released on context close. -/
structure Provider where
  interface : Interface
  kind : CallableKind
  parameters : List Param
  res : FactoryRes
  isCM : Bool
  isAsyncCM : Bool
  releaseErr : Option Nat
deriving DecidableEq, Repr

/-- Exceptions the engine raises or catches. -/
inductive Err where
  | typeError (msg : String)
  | lookupError
deriving DecidableEq, Repr

/-- An entry of a cleanup stack: the guarded value, and the error its release
raises (`none` when the release succeeds). -/
structure Cleanup where
  val : Value
  relErr : Option Nat
deriving DecidableEq, Repr

/-- State of one `ScopedContext`: the instance cache, the synchronous
`ExitStack`, the asynchronous `AsyncExitStack` (both in acquisition order,
last acquired at the end), and an allocation counter modelling Python
object identity for freshly created instances. -/
structure CtxState where
  instances : List (Interface × Value)
  stack : List Cleanup
  astack : List Cleanup
  ctr : Nat
deriving DecidableEq, Repr

/-- Python `dict.__getitem__` restricted to present keys: `dict.get(k)`
without default. -/
def dictGet {α β : Type} [DecidableEq α] : List (α × β) → α → Option β
  | [], _ => none
  | kv :: rest, k => if kv.1 = k then some kv.2 else dictGet rest k

/-- Python `dict.__setitem__`: replace in place if present, else append. -/
def dictSet {α β : Type} [DecidableEq α] : List (α × β) → α → β → List (α × β)
  | [], k, v => [(k, v)]
  | kv :: rest, k, v => if kv.1 = k then (k, v) :: rest else kv :: dictSet rest k v

/-- Environment abstracting the owning `Container`:  the override table
`container._override_instances`, the `testing` flag, and oracles for
`container._resolve_parameter` and `container._aresolve_parameter` (which
recursively resolve a dependency and may mutate state in arbitrary ways,
including raising `LookupError`). -/
structure Env where
  overrides : List (Interface × Value)
  testing : Bool
  resolveParam : Provider → Param → CtxState → (Except Err Value) × CtxState
  aresolveParam : Provider → Param → CtxState → (Except Err Value) × CtxState

/-- The message of the `TypeError` raised by `ScopedContext._create_instance`
for async-only providers. -/
def syncModeMsg (p : Provider) : String :=
  "The instance for the provider `" ++ toString p.interface ++
    "` cannot be created in " ++ "synchronous mode."

/-- Body of the per-parameter branch of `ScopedContext._get_provided_args`
(lines 115-130): override table first, then the instance cache, then
`container._resolve_parameter` with `LookupError` recovered by a declared
default, and the testing-mode `DependencyWrapper`. -/
def chooseInstance (env : Env) (p : Provider) (param : Param) (s : CtxState) :
    (Except Err Value) × CtxState :=
  match dictGet env.overrides param.iface with
  | some inst => (.ok inst, s)
  | none =>
    match dictGet s.instances param.iface with
    | some inst => (.ok inst, s)
    | none =>
      match env.resolveParam p param s with
      | (.ok inst, s1) =>
        (.ok (if env.testing then Value.wrapped param.iface inst else inst), s1)
      | (.error Err.lookupError, s1) =>
        if param.hasDefault then (.ok param.default, s1)
        else (.error Err.lookupError, s1)
      | (.error e, s1) => (.error e, s1)

/-- Async mirror of `chooseInstance`: body of the per-parameter branch of
`ScopedContext._aget_provided_args` (lines 145-162), which awaits
`container._aresolve_parameter` instead. -/
def achooseInstance (env : Env) (p : Provider) (param : Param) (s : CtxState) :
    (Except Err Value) × CtxState :=
  match dictGet env.overrides param.iface with
  | some inst => (.ok inst, s)
  | none =>
    match dictGet s.instances param.iface with
    | some inst => (.ok inst, s)
    | none =>
      match env.aresolveParam p param s with
      | (.ok inst, s1) =>
        (.ok (if env.testing then Value.wrapped param.iface inst else inst), s1)
      | (.error Err.lookupError, s1) =>
        if param.hasDefault then (.ok param.default, s1)
        else (.error Err.lookupError, s1)
      | (.error e, s1) => (.error e, s1)

/-- Binding step of the loop of `_get_provided_args` (lines 131-134):
positional-only parameters are appended to `args`, all others are bound by
name in `kwargs`. -/
def bindParam (param : Param) (inst : Value)
    (args : List Value) (kwargs : List (String × Value)) :
    List Value × List (String × Value) :=
  if param.positionalOnly then (args ++ [inst], kwargs)
  else (args, dictSet kwargs param.name inst)

/-- The loop of `ScopedContext._get_provided_args` over the provider
parameters, threading the state through the resolution oracle. -/
def getProvidedArgsAux (env : Env) (p : Provider) :
    List Param → List Value → List (String × Value) → CtxState →
    (Except Err (List Value × List (String × Value))) × CtxState
  | [], args, kwargs, s => (.ok (args, kwargs), s)
  | param :: rest, args, kwargs, s =>
    match chooseInstance env p param s with
    | (.ok inst, s1) =>
      let (args1, kwargs1) := bindParam param inst args kwargs
      getProvidedArgsAux env p rest args1 kwargs1 s1
    | (.error e, s1) => (.error e, s1)

/-- `ScopedContext._get_provided_args` (lines 107-135). -/
def get_provided_args (env : Env) (p : Provider) (s : CtxState) :
    (Except Err (List Value × List (String × Value))) × CtxState :=
  getProvidedArgsAux env p p.parameters [] [] s

/-- The loop of `ScopedContext._aget_provided_args`. -/
def agetProvidedArgsAux (env : Env) (p : Provider) :
    List Param → List Value → List (String × Value) → CtxState →
    (Except Err (List Value × List (String × Value))) × CtxState
  | [], args, kwargs, s => (.ok (args, kwargs), s)
  | param :: rest, args, kwargs, s =>
    match achooseInstance env p param s with
    | (.ok inst, s1) =>
      let (args1, kwargs1) := bindParam param inst args kwargs
      agetProvidedArgsAux env p rest args1 kwargs1 s1
    | (.error e, s1) => (.error e, s1)

/-- `ScopedContext._aget_provided_args` (lines 137-167). -/
def aget_provided_args (env : Env) (p : Provider) (s : CtxState) :
    (Except Err (List Value × List (String × Value))) × CtxState :=
  agetProvidedArgsAux env p p.parameters [] [] s

/-- Calling the provider factory: a `fresh` factory allocates a new object
(the current counter value) and bumps the counter; a `const` factory returns
its fixed value.  Returns the produced value and the new counter. -/
def factoryOut (p : Provider) (s : CtxState) : Value × Nat :=
  match p.res with
  | .fresh => (Value.obj s.ctr, s.ctr + 1)
  | .const v => (v, s.ctr)

/-- `ScopedContext._create_instance` (lines 52-69): async-only kinds raise
`TypeError` before any argument resolution; a `generator` factory is entered
as a context manager and pushed on the synchronous stack; a `plain` factory
result is pushed on the synchronous stack exactly when it is a context
manager. -/
def create_instance (env : Env) (p : Provider) (s : CtxState) :
    (Except Err Value) × CtxState :=
  if p.kind = CallableKind.coroutine ∨ p.kind = CallableKind.asyncGenerator then
    (.error (Err.typeError (syncModeMsg p)), s)
  else
    match get_provided_args env p s with
    | (.error e, s1) => (.error e, s1)
    | (.ok _, s1) =>
      let (v, c) := factoryOut p s1
      if p.kind = CallableKind.generator then
        (.ok v, { s1 with ctr := c, stack := s1.stack ++ [⟨v, p.releaseErr⟩] })
      else if p.isCM then
        (.ok v, { s1 with ctr := c, stack := s1.stack ++ [⟨v, p.releaseErr⟩] })
      else
        (.ok v, { s1 with ctr := c })

/-- `ScopedContext.get_or_create` (lines 43-50).  Note the source tests
`self._instances.get(provider.interface) is None`, so a cached `None` is
indistinguishable from an absent key and triggers re-creation. -/
def ScopedContext.get_or_create (env : Env) (p : Provider) (s : CtxState) :
    (Except Err (Value × Bool)) × CtxState :=
  let cached := (dictGet s.instances p.interface).getD Value.pynone
  if cached = Value.pynone then
    match create_instance env p s with
    | (.ok v, s1) =>
      (.ok (v, true), { s1 with instances := dictSet s1.instances p.interface v })
    | (.error e, s1) => (.error e, s1)
  else
    (.ok (cached, false), s)

/-- `ScopedContext._acreate_instance` (lines 80-105): `coroutine` results are
awaited and pushed on the async stack when they are async context managers;
`asyncGenerator` factories are entered as async context managers on the async
stack; `generator` factories are entered on the synchronous stack (via a
worker thread); `plain` results are pushed on the async stack when they are
async context managers. -/
def acreate_instance (env : Env) (p : Provider) (s : CtxState) :
    (Except Err Value) × CtxState :=
  match aget_provided_args env p s with
  | (.error e, s1) => (.error e, s1)
  | (.ok _, s1) =>
    let (v, c) := factoryOut p s1
    match p.kind with
    | CallableKind.coroutine =>
      if p.isAsyncCM then
        (.ok v, { s1 with ctr := c, astack := s1.astack ++ [⟨v, p.releaseErr⟩] })
      else
        (.ok v, { s1 with ctr := c })
    | CallableKind.asyncGenerator =>
      (.ok v, { s1 with ctr := c, astack := s1.astack ++ [⟨v, p.releaseErr⟩] })
    | CallableKind.generator =>
      (.ok v, { s1 with ctr := c, stack := s1.stack ++ [⟨v, p.releaseErr⟩] })
    | CallableKind.plain =>
      if p.isAsyncCM then
        (.ok v, { s1 with ctr := c, astack := s1.astack ++ [⟨v, p.releaseErr⟩] })
      else
        (.ok v, { s1 with ctr := c })

/-- `ScopedContext.aget_or_create` (lines 71-78): same `is None` cache test as
the synchronous path. -/
def ScopedContext.aget_or_create (env : Env) (p : Provider) (s : CtxState) :
    (Except Err (Value × Bool)) × CtxState :=
  let cached := (dictGet s.instances p.interface).getD Value.pynone
  if cached = Value.pynone then
    match acreate_instance env p s with
    | (.ok v, s1) =>
      (.ok (v, true), { s1 with instances := dictSet s1.instances p.interface v })
    | (.error e, s1) => (.error e, s1)
  else
    (.ok (cached, false), s)

/-- `TransientContext.get_or_create` (lines 242-244): always creates, never
consults or populates the instance cache, always reports `created = true`. -/
def TransientContext.get_or_create (env : Env) (p : Provider) (s : CtxState) :
    (Except Err (Value × Bool)) × CtxState :=
  match create_instance env p s with
  | (.ok v, s1) => (.ok (v, true), s1)
  | (.error e, s1) => (.error e, s1)

/-- `TransientContext.aget_or_create` (lines 246-250). -/
def TransientContext.aget_or_create (env : Env) (p : Provider) (s : CtxState) :
    (Except Err (Value × Bool)) × CtxState :=
  match acreate_instance env p s with
  | (.ok v, s1) => (.ok (v, true), s1)
  | (.error e, s1) => (.error e, s1)

/-- One pass of `contextlib.ExitStack.__exit__` over the exit callbacks in
execution order (the reverse of the stack, i.e. last acquired first).  Every
callback runs even after a failure; the result is the list of released values
in execution order and the list of release failures in execution order.
CPython keeps the most recent exception as the pending one and finally
re-raises it (earlier failures hang off its `__context__` chain), so the
exception that propagates out of `__exit__` is the LAST element of the
failure list, not the first. -/
def releasePass : List Cleanup → List Value × List Nat
  | [] => ([], [])
  | c :: rest =>
    let (ord, errs) := releasePass rest
    (c.val :: ord,
      match c.relErr with
      | some e => e :: errs
      | none => errs)

/-- `contextlib.ExitStack.__exit__(None, None, None)`: callbacks are popped
(the stack is emptied as a side effect) and run last-in-first-out; the
propagated exception is the most recent failure, if any. -/
def exitStackClose (stack : List Cleanup) : List Value × Option Nat :=
  ((releasePass stack.reverse).1, (releasePass stack.reverse).2.getLast?)

/-- `ScopedContext.close` (lines 190-192): delegates to
`self._stack.__exit__(None, None, None)`.  Returns the released values in
release order and the propagated failure, plus the new state (the exit stack
is emptied; the async stack and the instance cache are untouched). -/
def ScopedContext.close (s : CtxState) : (List Value × Option Nat) × CtxState :=
  (exitStackClose s.stack, { s with stack := [] })

/-- `ScopedContext.aclose` / `__aexit__(None, None, None)` (lines 199-219):
`await run_async(self.__exit__, ...) or await self._async_stack.__aexit__(...)`.
The left operand runs the synchronous exit stack; if it raises, the exception
propagates and the right operand — the async stack teardown — is never
evaluated.  Only when the synchronous pass returns without raising is the
asynchronous stack torn down.  Returns (sync releases, async releases,
propagated failure) and the new state. -/
def ScopedContext.aclose (s : CtxState) :
    (List Value × List Value × Option Nat) × CtxState :=
  match (exitStackClose s.stack).2 with
  | some e => (((exitStackClose s.stack).1, [], some e), { s with stack := [] })
  | none =>
    (((exitStackClose s.stack).1, (exitStackClose s.astack).1,
        (exitStackClose s.astack).2),
      { s with stack := [], astack := [] })

/-- Release failures of a stack in execution order (last acquired first). -/
def failuresOf (stack : List Cleanup) : List Nat :=
  stack.reverse.filterMap Cleanup.relErr

/-- A resolution oracle that never decreases the allocation counter.  The real
`container._resolve_parameter` only ever allocates new objects, so the
counter of the threaded state is monotone. -/
def CtrMono (f : Provider → Param → CtxState → (Except Err Value) × CtxState) : Prop :=
  ∀ p param s, s.ctr ≤ ((f p param s).2).ctr

/-- A resolution oracle that never writes this context's instance cache.  The
real `container._resolve_parameter`, called from a `TransientContext`, caches
dependencies only in the singleton/request contexts, never in the transient
one. -/
def InstancesStable
    (f : Provider → Param → CtxState → (Except Err Value) × CtxState) : Prop :=
  ∀ p param s, ((f p param s).2).instances = s.instances

/-- Sample environment: no overrides, testing off, and a resolution oracle
that always raises `LookupError` without touching the state. -/
def envC : Env where
  overrides := []
  testing := false
  resolveParam := fun _ _ s => (.error Err.lookupError, s)
  aresolveParam := fun _ _ s => (.error Err.lookupError, s)

/-- Empty context state. -/
def sEmpty : CtxState := { instances := [], stack := [], astack := [], ctr := 0 }

/-- A plain synchronous provider for interface 0 with no dependencies. -/
def pPlain : Provider :=
  { interface := 0, kind := CallableKind.plain, parameters := [],
    res := FactoryRes.fresh, isCM := false, isAsyncCM := false, releaseErr := none }

/-- A coroutine (async-only) provider for interface 3 with no dependencies. -/
def pAsync : Provider :=
  { interface := 3, kind := CallableKind.coroutine, parameters := [],
    res := FactoryRes.fresh, isCM := false, isAsyncCM := false, releaseErr := none }

/-- A parameter on interface 1, by name, with a declared default. -/
def paramDef : Param :=
  { name := "x", iface := 1, hasDefault := true, default := Value.obj 9,
    positionalOnly := false }

/-- A provider for interface 0 that depends on `paramDef`. -/
def pDep : Provider :=
  { interface := 0, kind := CallableKind.plain, parameters := [paramDef],
    res := FactoryRes.fresh, isCM := false, isAsyncCM := false, releaseErr := none }

/-- Sample environment whose override table binds interface 1 to `obj 42`. -/
def envOv : Env where
  overrides := [(1, Value.obj 42)]
  testing := false
  resolveParam := fun _ _ s => (.error Err.lookupError, s)
  aresolveParam := fun _ _ s => (.error Err.lookupError, s)

/-- A context state whose cache already holds interface 1. -/
def sCached1 : CtxState :=
  { instances := [(1, Value.obj 7)], stack := [], astack := [], ctr := 0 }
/-- A context state whose cache already holds interface 0. -/
def sHit : CtxState :=
  { instances := [(0, Value.obj 7)], stack := [], astack := [], ctr := 0 }
/-- A context state caching Python `None` under interface 0. -/
def sNoneCached : CtxState :=
  { instances := [(0, Value.pynone)], stack := [], astack := [], ctr := 5 }
/-- A context state with two failing releases on the synchronous stack:
resource `obj 1` acquired first (release fails with 10), then `obj 2`
(release fails with 20). -/
def sTwoFail : CtxState :=
  { instances := [],
    stack := [⟨Value.obj 1, some 10⟩, ⟨Value.obj 2, some 20⟩],
    astack := [], ctr := 0 }
/-- A context state with succeeding releases on both stacks. -/
def sBoth : CtxState :=
  { instances := [],
    stack := [⟨Value.obj 1, none⟩, ⟨Value.obj 2, none⟩],
    astack := [⟨Value.obj 3, none⟩], ctr := 0 }
/-- A context state with a failing synchronous release and a pending
asynchronous resource. -/
def sSyncFail : CtxState :=
  { instances := [],
    stack := [⟨Value.obj 1, some 5⟩],
    astack := [⟨Value.obj 2, none⟩], ctr := 0 }

lemma dictGet_dictSet_self {α β : Type} [DecidableEq α]
    (d : List (α × β)) (k : α) (v : β) : dictGet (dictSet d k v) k = some v := by
  induction d with
  | nil => simp [dictGet, dictSet]
  | cons kv rest ih =>
    by_cases h : kv.1 = k
    · simp [dictGet, dictSet, h]
    · simp [dictGet, dictSet, h, ih]

lemma releasePass_fst (l : List Cleanup) : (releasePass l).1 = l.map Cleanup.val := by
  induction l with
  | nil => simp [releasePass]
  | cons c rest ih => simp [releasePass, ih]

lemma releasePass_snd (l : List Cleanup) :
    (releasePass l).2 = l.filterMap Cleanup.relErr := by
  induction l with
  | nil => simp [releasePass]
  | cons c rest ih =>
    cases h : c.relErr <;> simp [releasePass, ih, List.filterMap_cons, h]

lemma create_instance_async_kind (env : Env) (p : Provider) (s : CtxState)
    (hk : p.kind = CallableKind.coroutine ∨ p.kind = CallableKind.asyncGenerator) :
    create_instance env p s = (.error (Err.typeError (syncModeMsg p)), s) := by
  unfold create_instance
  rw [if_pos hk]

lemma chooseInstance_ctr (env : Env) (p : Provider) (param : Param) (s : CtxState)
    (h : CtrMono env.resolveParam) :
    s.ctr ≤ ((chooseInstance env p param s).2).ctr := by
  unfold chooseInstance
  cases ho : dictGet env.overrides param.iface with
  | some inst => simp
  | none =>
    cases hc : dictGet s.instances param.iface with
    | some inst => simp
    | none =>
      have hm := h p param s
      rcases hr : env.resolveParam p param s with ⟨r, s1⟩
      rw [hr] at hm
      cases r with
      | ok inst => simpa using hm
      | error e =>
        cases e with
        | typeError m => simpa using hm
        | lookupError =>
          by_cases hd : param.hasDefault <;> simp [hd] <;> exact hm

lemma chooseInstance_instances (env : Env) (p : Provider) (param : Param)
    (s : CtxState) (h : InstancesStable env.resolveParam) :
    ((chooseInstance env p param s).2).instances = s.instances := by
  unfold chooseInstance
  cases ho : dictGet env.overrides param.iface with
  | some inst => simp
  | none =>
    cases hc : dictGet s.instances param.iface with
    | some inst => simp
    | none =>
      have hm := h p param s
      rcases hr : env.resolveParam p param s with ⟨r, s1⟩
      rw [hr] at hm
      cases r with
      | ok inst => simpa using hm
      | error e =>
        cases e with
        | typeError m => simpa using hm
        | lookupError =>
          by_cases hd : param.hasDefault <;> simp [hd] <;> exact hm

lemma achooseInstance_ctr (env : Env) (p : Provider) (param : Param) (s : CtxState)
    (h : CtrMono env.aresolveParam) :
    s.ctr ≤ ((achooseInstance env p param s).2).ctr := by
  unfold achooseInstance
  cases ho : dictGet env.overrides param.iface with
  | some inst => simp
  | none =>
    cases hc : dictGet s.instances param.iface with
    | some inst => simp
    | none =>
      have hm := h p param s
      rcases hr : env.aresolveParam p param s with ⟨r, s1⟩
      rw [hr] at hm
      cases r with
      | ok inst => simpa using hm
      | error e =>
        cases e with
        | typeError m => simpa using hm
        | lookupError =>
          by_cases hd : param.hasDefault <;> simp [hd] <;> exact hm

lemma achooseInstance_instances (env : Env) (p : Provider) (param : Param)
    (s : CtxState) (h : InstancesStable env.aresolveParam) :
    ((achooseInstance env p param s).2).instances = s.instances := by
  unfold achooseInstance
  cases ho : dictGet env.overrides param.iface with
  | some inst => simp
  | none =>
    cases hc : dictGet s.instances param.iface with
    | some inst => simp
    | none =>
      have hm := h p param s
      rcases hr : env.aresolveParam p param s with ⟨r, s1⟩
      rw [hr] at hm
      cases r with
      | ok inst => simpa using hm
      | error e =>
        cases e with
        | typeError m => simpa using hm
        | lookupError =>
          by_cases hd : param.hasDefault <;> simp [hd] <;> exact hm

lemma getProvidedArgsAux_ctr (env : Env) (p : Provider)
    (h : CtrMono env.resolveParam) :
    ∀ (params : List Param) (args : List Value) (kwargs : List (String × Value))
      (s : CtxState),
      s.ctr ≤ ((getProvidedArgsAux env p params args kwargs s).2).ctr := by
  intro params
  induction params with
  | nil => intro args kwargs s; simp [getProvidedArgsAux]
  | cons param rest ih =>
    intro args kwargs s
    have hc := chooseInstance_ctr env p param s h
    unfold getProvidedArgsAux
    rcases hch : chooseInstance env p param s with ⟨r, s1⟩
    rw [hch] at hc
    cases r with
    | ok inst =>
      rcases hb : bindParam param inst args kwargs with ⟨args1, kwargs1⟩
      simp only [hb]
      exact le_trans hc (ih args1 kwargs1 s1)
    | error e => simpa using hc

lemma getProvidedArgsAux_instances (env : Env) (p : Provider)
    (h : InstancesStable env.resolveParam) :
    ∀ (params : List Param) (args : List Value) (kwargs : List (String × Value))
      (s : CtxState),
      ((getProvidedArgsAux env p params args kwargs s).2).instances = s.instances := by
  intro params
  induction params with
  | nil => intro args kwargs s; simp [getProvidedArgsAux]
  | cons param rest ih =>
    intro args kwargs s
    have hc := chooseInstance_instances env p param s h
    unfold getProvidedArgsAux
    rcases hch : chooseInstance env p param s with ⟨r, s1⟩
    rw [hch] at hc
    cases r with
    | ok inst =>
      rcases hb : bindParam param inst args kwargs with ⟨args1, kwargs1⟩
      simp only [hb]
      rw [ih args1 kwargs1 s1]
      exact hc
    | error e => simpa using hc

lemma agetProvidedArgsAux_ctr (env : Env) (p : Provider)
    (h : CtrMono env.aresolveParam) :
    ∀ (params : List Param) (args : List Value) (kwargs : List (String × Value))
      (s : CtxState),
      s.ctr ≤ ((agetProvidedArgsAux env p params args kwargs s).2).ctr := by
  intro params
  induction params with
  | nil => intro args kwargs s; simp [agetProvidedArgsAux]
  | cons param rest ih =>
    intro args kwargs s
    have hc := achooseInstance_ctr env p param s h
    unfold agetProvidedArgsAux
    rcases hch : achooseInstance env p param s with ⟨r, s1⟩
    rw [hch] at hc
    cases r with
    | ok inst =>
      rcases hb : bindParam param inst args kwargs with ⟨args1, kwargs1⟩
      simp only [hb]
      exact le_trans hc (ih args1 kwargs1 s1)
    | error e => simpa using hc

lemma agetProvidedArgsAux_instances (env : Env) (p : Provider)
    (h : InstancesStable env.aresolveParam) :
    ∀ (params : List Param) (args : List Value) (kwargs : List (String × Value))
      (s : CtxState),
      ((agetProvidedArgsAux env p params args kwargs s).2).instances = s.instances := by
  intro params
  induction params with
  | nil => intro args kwargs s; simp [agetProvidedArgsAux]
  | cons param rest ih =>
    intro args kwargs s
    have hc := achooseInstance_instances env p param s h
    unfold agetProvidedArgsAux
    rcases hch : achooseInstance env p param s with ⟨r, s1⟩
    rw [hch] at hc
    cases r with
    | ok inst =>
      rcases hb : bindParam param inst args kwargs with ⟨args1, kwargs1⟩
      simp only [hb]
      rw [ih args1 kwargs1 s1]
      exact hc
    | error e => simpa using hc

lemma create_instance_instances (env : Env) (p : Provider) (s : CtxState)
    (h : InstancesStable env.resolveParam) :
    ((create_instance env p s).2).instances = s.instances := by
  unfold create_instance
  by_cases hk : p.kind = CallableKind.coroutine ∨ p.kind = CallableKind.asyncGenerator
  · rw [if_pos hk]
  · rw [if_neg hk]
    have ha := getProvidedArgsAux_instances env p h p.parameters [] [] s
    rcases hga : get_provided_args env p s with ⟨r, s1⟩
    have hga2 : getProvidedArgsAux env p p.parameters [] [] s = (r, s1) := hga
    rw [hga2] at ha
    cases r with
    | error e => simpa using ha
    | ok a =>
      rcases hfo : factoryOut p s1 with ⟨v, c⟩
      by_cases hg : p.kind = CallableKind.generator
      · simp only [hfo, hg, if_pos]
        simpa using ha
      · by_cases hcm : p.isCM = true
        · simp only [hfo, hg, if_neg, if_pos hcm, ite_false]
          simpa using ha
        · simp only [hfo, hg, hcm, ite_false, if_neg]
          simpa using ha

lemma create_instance_fresh (env : Env) (p : Provider) (s : CtxState)
    (hm : CtrMono env.resolveParam) (hf : p.res = FactoryRes.fresh) :
    ∀ v s1, create_instance env p s = (.ok v, s1) →
      ∃ c, v = Value.obj c ∧ s.ctr ≤ c ∧ s1.ctr = c + 1 := by
  intro v s1 hcr
  unfold create_instance at hcr
  by_cases hk : p.kind = CallableKind.coroutine ∨ p.kind = CallableKind.asyncGenerator
  · rw [if_pos hk] at hcr
    exact absurd (congrArg Prod.fst hcr) (by simp)
  · rw [if_neg hk] at hcr
    have ha := getProvidedArgsAux_ctr env p hm p.parameters [] [] s
    rcases hga : get_provided_args env p s with ⟨r, sa⟩
    have hga2 : getProvidedArgsAux env p p.parameters [] [] s = (r, sa) := hga
    rw [hga2] at ha
    rw [hga] at hcr
    cases r with
    | error e => exact absurd (congrArg Prod.fst hcr) (by simp)
    | ok a =>
      refine ⟨sa.ctr, ?_⟩
      simp only [factoryOut, hf] at hcr
      split at hcr <;> try split at hcr
      all_goals
        rw [Prod.mk.injEq] at hcr
        obtain ⟨h1, h2⟩ := hcr
        injection h1 with h1v
        exact ⟨h1v.symm, ha, by rw [← h2]⟩

lemma acreate_instance_instances (env : Env) (p : Provider) (s : CtxState)
    (h : InstancesStable env.aresolveParam) :
    ((acreate_instance env p s).2).instances = s.instances := by
  unfold acreate_instance
  have ha := agetProvidedArgsAux_instances env p h p.parameters [] [] s
  rcases hga : aget_provided_args env p s with ⟨r, s1⟩
  have hga2 : agetProvidedArgsAux env p p.parameters [] [] s = (r, s1) := hga
  rw [hga2] at ha
  cases r with
  | error e => simpa using ha
  | ok a =>
    rcases hfo : factoryOut p s1 with ⟨v, c⟩
    cases hk : p.kind <;>
      simp only [hfo] <;>
      first
      | (split <;> simpa using ha)
      | simpa using ha

lemma acreate_instance_fresh (env : Env) (p : Provider) (s : CtxState)
    (hm : CtrMono env.aresolveParam) (hf : p.res = FactoryRes.fresh) :
    ∀ v s1, acreate_instance env p s = (.ok v, s1) →
      ∃ c, v = Value.obj c ∧ s.ctr ≤ c ∧ s1.ctr = c + 1 := by
  intro v s1 hcr
  unfold acreate_instance at hcr
  have ha := agetProvidedArgsAux_ctr env p hm p.parameters [] [] s
  rcases hga : aget_provided_args env p s with ⟨r, sa⟩
  have hga2 : agetProvidedArgsAux env p p.parameters [] [] s = (r, sa) := hga
  rw [hga2] at ha
  rw [hga] at hcr
  cases r with
  | error e => exact absurd (congrArg Prod.fst hcr) (by simp)
  | ok a =>
    refine ⟨sa.ctr, ?_⟩
    simp only [factoryOut, hf] at hcr
    split at hcr <;> try split at hcr
    all_goals
      rw [Prod.mk.injEq] at hcr
      obtain ⟨h1, h2⟩ := hcr
      injection h1 with h1v
      exact ⟨h1v.symm, ha, by rw [← h2]⟩

lemma transient_ok (env : Env) (p : Provider) (s : CtxState) :
    ∀ v b, (TransientContext.get_or_create env p s).1 = .ok (v, b) →
      b = true
      ∧ create_instance env p s = (.ok v, (TransientContext.get_or_create env p s).2) := by
  intro v b h
  rcases hc : create_instance env p s with ⟨r, st⟩
  unfold TransientContext.get_or_create at h ⊢
  rw [hc] at h ⊢
  cases r with
  | ok a =>
    simp only [Except.ok.injEq, Prod.mk.injEq] at h
    obtain ⟨hv, hb⟩ := h
    exact ⟨hb.symm, by rw [hv]⟩
  | error e => simp at h
lemma transient_state_eq (env : Env) (p : Provider) (s : CtxState) :
    (TransientContext.get_or_create env p s).2 = (create_instance env p s).2 := by
  rcases hc : create_instance env p s with ⟨r, st⟩
  unfold TransientContext.get_or_create
  rw [hc]
  cases r <;> rfl
lemma atransient_ok (env : Env) (p : Provider) (s : CtxState) :
    ∀ v b, (TransientContext.aget_or_create env p s).1 = .ok (v, b) →
      b = true
      ∧ acreate_instance env p s = (.ok v, (TransientContext.aget_or_create env p s).2) := by
  intro v b h
  rcases hc : acreate_instance env p s with ⟨r, st⟩
  unfold TransientContext.aget_or_create at h ⊢
  rw [hc] at h ⊢
  cases r with
  | ok a =>
    simp only [Except.ok.injEq, Prod.mk.injEq] at h
    obtain ⟨hv, hb⟩ := h
    exact ⟨hb.symm, by rw [hv]⟩
  | error e => simp at h
lemma atransient_state_eq (env : Env) (p : Provider) (s : CtxState) :
    (TransientContext.aget_or_create env p s).2 = (acreate_instance env p s).2 := by
  rcases hc : acreate_instance env p s with ⟨r, st⟩
  unfold TransientContext.aget_or_create
  rw [hc]
  cases r <;> rfl

/-- C2: for a provider whose call kind is `COROUTINE` or `ASYNC_GENERATOR`,
`_create_instance` raises `TypeError` whose message contains the substring
"cannot be created in synchronous mode", leaves the state untouched, and
produces no instance; `get_or_create` (when the interface is not already
cached) propagates the same `TypeError`. -/
theorem c2_async_provider_sync_type_error (env : Env) (p : Provider) (s : CtxState)
    (hk : p.kind = CallableKind.coroutine ∨ p.kind = CallableKind.asyncGenerator) :
    create_instance env p s = (.error (Err.typeError (syncModeMsg p)), s)
    ∧ "cannot be created in synchronous mode".data <:+: (syncModeMsg p).data
    ∧ ((dictGet s.instances p.interface).getD Value.pynone = Value.pynone →
        ScopedContext.get_or_create env p s =
          (.error (Err.typeError (syncModeMsg p)), s)) := by
  refine ⟨create_instance_async_kind env p s hk, ?_, ?_⟩
  · refine ⟨"The instance for the provider `".data ++
        (toString p.interface).data ++ "` ".data, ".".data, ?_⟩
    have h : (syncModeMsg p).data =
        "The instance for the provider `".data ++ (toString p.interface).data ++
          ("` cannot be created in ".data ++ "synchronous mode.".data) := by
      simp [syncModeMsg, String.data_append]
    rw [h]
    have h2 : "` cannot be created in ".data ++ "synchronous mode.".data =
        "` ".data ++ "cannot be created in synchronous mode".data ++ ".".data := by
      decide
    rw [h2]
    simp
  · intro hmiss
    unfold ScopedContext.get_or_create
    rw [create_instance_async_kind env p s hk]
    simp [hmiss]

/-- C2 witness: a concrete coroutine provider on the empty context. -/
theorem c2_witness :
    ScopedContext.get_or_create envC pAsync sEmpty =
      (.error (Err.typeError (syncModeMsg pAsync)), sEmpty) :=
  (c2_async_provider_sync_type_error envC pAsync sEmpty (Or.inl rfl)).2.2 rfl

/-- C10: the `TypeError` of synchronous creation of an async-only provider is
raised before any parameter resolution (the result is the same for every
resolution oracle and override table) and the state — instance cache, both
cleanup stacks and the allocation counter — is returned exactly unchanged;
likewise through `TransientContext.get_or_create`. -/
theorem c10_sync_failure_atomic (env env2 : Env) (p : Provider) (s : CtxState)
    (hk : p.kind = CallableKind.coroutine ∨ p.kind = CallableKind.asyncGenerator) :
    create_instance env p s = (.error (Err.typeError (syncModeMsg p)), s)
    ∧ create_instance env p s = create_instance env2 p s
    ∧ TransientContext.get_or_create env p s =
        (.error (Err.typeError (syncModeMsg p)), s) := by
  have h1 := create_instance_async_kind env p s hk
  have h2 := create_instance_async_kind env2 p s hk
  refine ⟨h1, h1.trans h2.symm, ?_⟩
  unfold TransientContext.get_or_create
  rw [h1]

/-- C10 witness: concrete coroutine provider, two different environments. -/
theorem c10_witness :
    TransientContext.get_or_create envC pAsync sEmpty =
      (.error (Err.typeError (syncModeMsg pAsync)), sEmpty)
    ∧ create_instance envC pAsync sEmpty = create_instance envOv pAsync sEmpty :=
  ⟨(c10_sync_failure_atomic envC envOv pAsync sEmpty (Or.inl rfl)).2.2,
    (c10_sync_failure_atomic envC envOv pAsync sEmpty (Or.inl rfl)).2.1⟩

/-- C1 (amended): `get_or_create` (and `aget_or_create`) returns the cached
instance with `created = false` whenever the cache holds a non-None value for
`provider.interface`; when the key is absent — or maps to Python `None`,
which the `is None` test cannot distinguish from absence — it builds the
instance via `create_instance` (resp. `_acreate_instance`), stores it in the
cache under `provider.interface`, and returns it with `created = true`,
propagating any creation error. -/
theorem c1_get_or_create_cache (env : Env) (p : Provider) (s : CtxState) :
    (∀ v, dictGet s.instances p.interface = some v → v ≠ Value.pynone →
      ScopedContext.get_or_create env p s = (.ok (v, false), s)
      ∧ ScopedContext.aget_or_create env p s = (.ok (v, false), s))
    ∧ ((dictGet s.instances p.interface).getD Value.pynone = Value.pynone →
      (∀ v s1, create_instance env p s = (.ok v, s1) →
        ScopedContext.get_or_create env p s =
          (.ok (v, true), { s1 with instances := dictSet s1.instances p.interface v })
        ∧ dictGet (dictSet s1.instances p.interface v) p.interface = some v)
      ∧ (∀ e s1, create_instance env p s = (.error e, s1) →
        ScopedContext.get_or_create env p s = (.error e, s1))
      ∧ (∀ v s1, acreate_instance env p s = (.ok v, s1) →
        ScopedContext.aget_or_create env p s =
          (.ok (v, true), { s1 with instances := dictSet s1.instances p.interface v })
        ∧ dictGet (dictSet s1.instances p.interface v) p.interface = some v)
      ∧ (∀ e s1, acreate_instance env p s = (.error e, s1) →
        ScopedContext.aget_or_create env p s = (.error e, s1))) := by
  constructor
  · intro v hv hne
    constructor
    · unfold ScopedContext.get_or_create
      simp [hv, hne]
    · unfold ScopedContext.aget_or_create
      simp [hv, hne]
  · intro hmiss
    refine ⟨?_, ?_, ?_, ?_⟩
    · intro v s1 hcr
      unfold ScopedContext.get_or_create
      rw [hcr] at *
      simp [hmiss, dictGet_dictSet_self]
    · intro e s1 hcr
      unfold ScopedContext.get_or_create
      rw [hcr]
      simp [hmiss]
    · intro v s1 hcr
      unfold ScopedContext.aget_or_create
      rw [hcr] at *
      simp [hmiss, dictGet_dictSet_self]
    · intro e s1 hcr
      unfold ScopedContext.aget_or_create
      rw [hcr]
      simp [hmiss]


/-- C1 witness: a cache hit on a concrete state. -/
theorem c1_witness :
    ScopedContext.get_or_create envC pPlain sHit = (.ok (Value.obj 7, false), sHit) :=
  (((c1_get_or_create_cache envC pPlain sHit).1 (Value.obj 7) rfl (by decide))).1


/-- C1 counterexample: the cache holds `provider.interface` (key 0, mapped to
Python `None`), yet `get_or_create` does not return the cached value with
`created = false` — it re-creates the instance and returns `created = true`,
because the source tests `self._instances.get(...) is None` rather than key
membership. -/
theorem c1_counterexample :
    (dictGet sNoneCached.instances pPlain.interface).isSome = true
    ∧ ScopedContext.get_or_create envC pPlain sNoneCached =
        (.ok (Value.obj 5, true),
          { instances := [(0, Value.obj 5)], stack := [], astack := [], ctr := 6 }) :=
  ⟨rfl, rfl⟩

/-- C3: when a parameter's interface has no override, no cached instance and
no registered provider (the resolution oracle raises `LookupError`), the
declared default is substituted when present, and otherwise the
`LookupError` propagates out of `_get_provided_args`; identically for the
asynchronous `_aget_provided_args`. -/
theorem c3_lookup_error_default (env : Env) (p : Provider) (param : Param)
    (s sR sA : CtxState)
    (hp : p.parameters = [param])
    (hov : dictGet env.overrides param.iface = none)
    (hcache : dictGet s.instances param.iface = none)
    (hr : env.resolveParam p param s = (.error Err.lookupError, sR))
    (ha : env.aresolveParam p param s = (.error Err.lookupError, sA)) :
    (param.hasDefault = true →
      get_provided_args env p s = (.ok (bindParam param param.default [] []), sR)
      ∧ aget_provided_args env p s = (.ok (bindParam param param.default [] []), sA))
    ∧ (param.hasDefault = false →
      get_provided_args env p s = (.error Err.lookupError, sR)
      ∧ aget_provided_args env p s = (.error Err.lookupError, sA)) := by
  constructor <;> intro hd <;> constructor
  · rw [get_provided_args, hp]
    unfold getProvidedArgsAux chooseInstance
    rcases hb : bindParam param param.default [] [] with ⟨a1, k1⟩
    simp [hov, hcache, hr, hd, hb, getProvidedArgsAux]
  · rw [aget_provided_args, hp]
    unfold agetProvidedArgsAux achooseInstance
    rcases hb : bindParam param param.default [] [] with ⟨a1, k1⟩
    simp [hov, hcache, ha, hd, hb, agetProvidedArgsAux]
  · rw [get_provided_args, hp]
    unfold getProvidedArgsAux chooseInstance
    simp [hov, hcache, hr, hd]
  · rw [aget_provided_args, hp]
    unfold agetProvidedArgsAux achooseInstance
    simp [hov, hcache, ha, hd]

/-- C3 witness: a concrete unregistered dependency with a declared default. -/
theorem c3_witness :
    get_provided_args envC pDep sEmpty = (.ok ([], [("x", Value.obj 9)]), sEmpty) :=
  ((c3_lookup_error_default envC pDep paramDef sEmpty sEmpty sEmpty
      rfl rfl rfl rfl rfl).1 rfl).1

/-- C4: when a parameter's interface is in the override table, the override
instance is bound — before the cache and before any provider creation: the
result and the unchanged state are the same for every cache content
(including one already holding that interface) and for every resolution
oracle, so no factory can have run and nothing is stored in the cache;
identically for the asynchronous path. -/
theorem c4_override_precedence (env : Env) (p : Provider) (param : Param)
    (s : CtxState) (w : Value)
    (hp : p.parameters = [param])
    (hov : dictGet env.overrides param.iface = some w) :
    get_provided_args env p s = (.ok (bindParam param w [] []), s)
    ∧ aget_provided_args env p s = (.ok (bindParam param w [] []), s) := by
  constructor
  · rw [get_provided_args, hp]
    unfold getProvidedArgsAux chooseInstance
    rcases hb : bindParam param w [] [] with ⟨a1, k1⟩
    simp [hov, hb, getProvidedArgsAux]
  · rw [aget_provided_args, hp]
    unfold agetProvidedArgsAux achooseInstance
    rcases hb : bindParam param w [] [] with ⟨a1, k1⟩
    simp [hov, hb, agetProvidedArgsAux]

/-- C4 witness: the override wins although the cache holds interface 1 with a
different instance, and the cache is not modified. -/
theorem c4_witness :
    get_provided_args envOv pDep sCached1 =
      (.ok ([], [("x", Value.obj 42)]), sCached1) :=
  (c4_override_precedence envOv pDep paramDef sCached1 (Value.obj 42) rfl rfl).1

/-- C5 (amended): closing a scoped context releases every resource on its
synchronous cleanup stack in strict reverse of acquisition order; if a
release fails, the remaining releases are still attempted (every entry is
released), and the MOST RECENT (last) cleanup failure — not the first — is
the one propagated after all releases complete, earlier failures being
attached to its exception context; the stack is emptied. -/
theorem c5_close_lifo (s : CtxState) :
    (ScopedContext.close s).1.1 = (s.stack.map Cleanup.val).reverse
    ∧ (ScopedContext.close s).1.1.length = s.stack.length
    ∧ (ScopedContext.close s).1.2 = (failuresOf s.stack).getLast?
    ∧ (ScopedContext.close s).2 = { s with stack := [] } := by
  refine ⟨?_, ?_, ?_, rfl⟩
  · show (exitStackClose s.stack).1 = _
    unfold exitStackClose
    rw [releasePass_fst, List.map_reverse]
  · show (exitStackClose s.stack).1.length = _
    unfold exitStackClose
    rw [releasePass_fst]
    simp
  · show (exitStackClose s.stack).2 = _
    unfold exitStackClose
    rw [releasePass_snd]
    rfl


/-- C5 counterexample: during the close pass the first failure (in execution
order) is 20 — raised while releasing the last-acquired resource `obj 2` —
but the error propagated by `close` is 10, the last failure, so the claim
that the first cleanup failure is propagated is false; both releases are
still attempted, in reverse acquisition order. -/
theorem c5_counterexample :
    (failuresOf sTwoFail.stack).head? = some 20
    ∧ (ScopedContext.close sTwoFail).1.2 = some 10
    ∧ (ScopedContext.close sTwoFail).1.1 = [Value.obj 2, Value.obj 1]
    ∧ ¬((ScopedContext.close sTwoFail).1.2 = some 20) := by
  refine ⟨rfl, rfl, rfl, by decide⟩

/-- C6 (amended): `aclose` / `__aexit__` runs the entire synchronous cleanup
stack first; the asynchronous cleanup stack is torn down afterwards ONLY
when no synchronous release fails.  When a synchronous release fails, the
failure propagates out of the first operand of
`await run_async(self.__exit__, ...) or await self._async_stack.__aexit__(...)`
and the asynchronous stack is NOT torn down (it is left untouched).
Synchronous resources are always released before any asynchronous
teardown. -/
theorem c6_aclose_order (s : CtxState) :
    (ScopedContext.aclose s).1.1 = (s.stack.map Cleanup.val).reverse
    ∧ (failuresOf s.stack = [] →
        (ScopedContext.aclose s).1.2.1 = (s.astack.map Cleanup.val).reverse
        ∧ (ScopedContext.aclose s).1.2.2 = (failuresOf s.astack).getLast?
        ∧ (ScopedContext.aclose s).2 = { s with stack := [], astack := [] })
    ∧ (failuresOf s.stack ≠ [] →
        (ScopedContext.aclose s).1.2.2 = (failuresOf s.stack).getLast?
        ∧ (ScopedContext.aclose s).1.2.1 = []
        ∧ (ScopedContext.aclose s).2 = { s with stack := [] }) := by
  have hsnd : (exitStackClose s.stack).2 = (failuresOf s.stack).getLast? := by
    unfold exitStackClose
    rw [releasePass_snd]
    rfl
  have hfst : (exitStackClose s.stack).1 = (s.stack.map Cleanup.val).reverse := by
    unfold exitStackClose
    rw [releasePass_fst, List.map_reverse]
  have hafst : (exitStackClose s.astack).1 = (s.astack.map Cleanup.val).reverse := by
    unfold exitStackClose
    rw [releasePass_fst, List.map_reverse]
  have hasnd : (exitStackClose s.astack).2 = (failuresOf s.astack).getLast? := by
    unfold exitStackClose
    rw [releasePass_snd]
    rfl
  cases hopt : (exitStackClose s.stack).2 with
  | none =>
    have hlast : (failuresOf s.stack).getLast? = none := by rw [← hsnd, hopt]
    have hfailnil : failuresOf s.stack = [] := by
      by_contra hne
      have hs := List.getLast?_isSome.mpr hne
      rw [hlast] at hs
      exact Bool.noConfusion hs
    unfold ScopedContext.aclose
    rw [hopt]
    exact ⟨hfst, fun _ => ⟨hafst, hasnd, rfl⟩, fun h => absurd hfailnil h⟩
  | some e =>
    have hlast : (failuresOf s.stack).getLast? = some e := by rw [← hsnd, hopt]
    have hne : failuresOf s.stack ≠ [] := by
      intro h0
      rw [h0] at hlast
      exact Option.noConfusion hlast
    unfold ScopedContext.aclose
    rw [hopt]
    exact ⟨hfst, fun h => absurd h hne, fun _ => ⟨hlast.symm, rfl, rfl⟩⟩


/-- C6 witness: on a failure-free concrete state both stacks are torn down,
synchronous releases first, in reverse acquisition order. -/
theorem c6_witness :
    (ScopedContext.aclose sBoth).1.1 = [Value.obj 2, Value.obj 1]
    ∧ (ScopedContext.aclose sBoth).1.2.1 = [Value.obj 3]
    ∧ (ScopedContext.aclose sBoth).2 = { sBoth with stack := [], astack := [] } :=
  ⟨(c6_aclose_order sBoth).1,
    ((c6_aclose_order sBoth).2.1 rfl).1,
    ((c6_aclose_order sBoth).2.1 rfl).2.2⟩


/-- C6 counterexample: a synchronous release fails, the failure propagates,
and the asynchronous cleanup stack is NOT torn down — no async release runs
and the async stack still holds its entry — contradicting the claim that the
asynchronous stack is torn down on every exit path including the case where
a synchronous release fails. -/
theorem c6_counterexample :
    (ScopedContext.aclose sSyncFail).1.2.1 = []
    ∧ ((ScopedContext.aclose sSyncFail).2).astack = [⟨Value.obj 2, none⟩]
    ∧ (ScopedContext.aclose sSyncFail).1.2.2 = some 5 :=
  ⟨rfl, rfl, rfl⟩

/-- C8: `close` is idempotent-safe — after one `close`, a second `close`
releases nothing, propagates nothing and leaves the state unchanged: exactly
one real release pass occurs however many times `close` is invoked. -/
theorem c8_close_idempotent (s : CtxState) :
    ScopedContext.close ((ScopedContext.close s).2) =
      (([], none), (ScopedContext.close s).2) := rfl





/-- C7: on a `TransientContext`, every successful `get_or_create` (or
`aget_or_create`) reports `created = true`, the transient instance map is
never written (given that the recursive resolution oracle never writes it,
as the real container caches dependencies only in their own scoped
contexts), and two successive resolutions of the same fresh-allocating
transient provider return distinct instances. -/
theorem c7_transient_fresh (env : Env) (p : Provider) (s : CtxState)
    (hm : CtrMono env.resolveParam) (hi : InstancesStable env.resolveParam)
    (ham : CtrMono env.aresolveParam) (hai : InstancesStable env.aresolveParam)
    (hf : p.res = FactoryRes.fresh) :
    (((TransientContext.get_or_create env p s).2).instances = s.instances
      ∧ (∀ v b, (TransientContext.get_or_create env p s).1 = .ok (v, b) → b = true)
      ∧ (∀ v1 b1 v2 b2,
          (TransientContext.get_or_create env p s).1 = .ok (v1, b1) →
          (TransientContext.get_or_create env p
              ((TransientContext.get_or_create env p s).2)).1 = .ok (v2, b2) →
          v2 ≠ v1))
    ∧ (((TransientContext.aget_or_create env p s).2).instances = s.instances
      ∧ (∀ v b, (TransientContext.aget_or_create env p s).1 = .ok (v, b) → b = true)
      ∧ (∀ v1 b1 v2 b2,
          (TransientContext.aget_or_create env p s).1 = .ok (v1, b1) →
          (TransientContext.aget_or_create env p
              ((TransientContext.aget_or_create env p s).2)).1 = .ok (v2, b2) →
          v2 ≠ v1)) := by
  constructor
  · refine ⟨?_, ?_, ?_⟩
    · rw [transient_state_eq]
      exact create_instance_instances env p s hi
    · intro v b h
      exact (transient_ok env p s v b h).1
    · intro v1 b1 v2 b2 h1 h2
      obtain ⟨-, hcr1⟩ := transient_ok env p s v1 b1 h1
      obtain ⟨-, hcr2⟩ := transient_ok env p _ v2 b2 h2
      obtain ⟨c1, hv1, -, hctr1⟩ := create_instance_fresh env p s hm hf v1 _ hcr1
      obtain ⟨c2, hv2, hge2, -⟩ := create_instance_fresh env p _ hm hf v2 _ hcr2
      rw [hctr1] at hge2
      rw [hv1, hv2]
      intro heq
      injection heq with heq
      omega
  · refine ⟨?_, ?_, ?_⟩
    · rw [atransient_state_eq]
      exact acreate_instance_instances env p s hai
    · intro v b h
      exact (atransient_ok env p s v b h).1
    · intro v1 b1 v2 b2 h1 h2
      obtain ⟨-, hcr1⟩ := atransient_ok env p s v1 b1 h1
      obtain ⟨-, hcr2⟩ := atransient_ok env p _ v2 b2 h2
      obtain ⟨c1, hv1, -, hctr1⟩ := acreate_instance_fresh env p s ham hf v1 _ hcr1
      obtain ⟨c2, hv2, hge2, -⟩ := acreate_instance_fresh env p _ ham hf v2 _ hcr2
      rw [hctr1] at hge2
      rw [hv1, hv2]
      intro heq
      injection heq with heq
      omega

/-- C7 witness: two successive transient resolutions of a concrete fresh
provider return distinct objects and never populate the instance map. -/
theorem c7_witness :
    ((TransientContext.get_or_create envC pPlain sEmpty).2).instances = []
    ∧ Value.obj 1 ≠ Value.obj 0 := by
  have h := c7_transient_fresh envC pPlain sEmpty
    (fun _ _ _ => Nat.le_refl _) (fun _ _ _ => rfl)
    (fun _ _ _ => Nat.le_refl _) (fun _ _ _ => rfl) rfl
  exact ⟨h.1.1, h.1.2.2 (Value.obj 0) true (Value.obj 1) true rfl rfl⟩

end AnyDI
